import Mathlib

/-!
# SafeWard — Telemetry Ingestion & Threshold Alerting Engine, verified model

A shallow embedding of the SafeWard repository's core (reading validation,
bounded history store, liveness classification, threshold evaluation, alert
ledger with debounce, polling reconciler) together with theorems settling the
specification's claims against it.

Conventions of the embedding:
* JavaScript numbers are modelled as rationals (`ℚ`); every number reaching the
  engine comes from a JSON body, and JSON numbers are finite, so `ℚ` is a
  faithful carrier for the comparisons the code performs.  The spec's `1.2`
  multiplier is the exact rational `6/5` (at the concrete thresholds used by
  the program, the double-precision products `w * 1.2` round to the same
  values, e.g. `800 * 1.2 = 960` exactly in binary64).
* Timestamps (`Date.now()` milliseconds) are modelled as `Int`.
* JavaScript truthiness of optional fields (`x || default`) is modelled
  explicitly (`jsOrStr`, `jsOrVal`, `jsOrTime`, `jsOrInt`).
* `Array.prototype.sort` (stable, comparator-consistent) is modelled by
  `List.mergeSort`, and `Array.prototype.slice` with a negative start by
  `jsTakeLast` / `jsSlice`.
-/

set_option maxRecDepth 8000

namespace SafeWard

/-- The three measurement kinds of `SensorType` (src/types.ts). -/
inductive SensorType
  | METHANE
  | TEMPERATURE
  | HUMIDITY
deriving DecidableEq, Repr

/-- `${config.type}` — how a `SensorType` prints inside a template string. -/
def sensorTypeName : SensorType → String
  | .METHANE => "METHANE"
  | .TEMPERATURE => "TEMPERATURE"
  | .HUMIDITY => "HUMIDITY"

/-- `SensorConfig` (src/types.ts): static per-channel configuration. -/
structure SensorConfig where
  id : String
  type : SensorType
  label : String
  unit : String
  safeMin : ℚ
  safeMax : ℚ
  warningThreshold : ℚ
  location : String
deriving DecidableEq, Repr

/-- `SensorReading` (src/types.ts, part_007 variant with the optional
`error` field): one channel-specific derived reading. -/
structure SensorReading where
  id : String
  type : SensorType
  value : ℚ
  unit : String
  timestamp : Int
  location : String
  error : Option String := none
deriving DecidableEq, Repr

/-- Alert severity. -/
inductive Severity
  | WARNING
  | CRITICAL
deriving DecidableEq, Repr

/-- `Alert` (src/types.ts). -/
structure Alert where
  id : String
  sensorId : String
  message : String
  severity : Severity
  timestamp : Int
  acknowledged : Bool
deriving DecidableEq, Repr

/-- `SENSOR_CONFIGS` (src/unnamed/part_005): the nine deployed channels,
three locations × three measurement types. -/
def SENSOR_CONFIGS : List SensorConfig :=
  [ { id := "wa-temp", type := .TEMPERATURE, label := "Ward A Temp", unit := "°C",
      safeMin := 22, safeMax := 26, warningThreshold := 26, location := "Ward A" },
    { id := "wa-hum", type := .HUMIDITY, label := "Ward A Humidity", unit := "%",
      safeMin := 40, safeMax := 60, warningThreshold := 60, location := "Ward A" },
    { id := "wa-meth", type := .METHANE, label := "Ward A Methane", unit := "ppm",
      safeMin := 0, safeMax := 200, warningThreshold := 200, location := "Ward A" },
    { id := "wb-temp", type := .TEMPERATURE, label := "Ward B Temp", unit := "°C",
      safeMin := 22, safeMax := 26, warningThreshold := 26, location := "Ward B" },
    { id := "wb-hum", type := .HUMIDITY, label := "Ward B Humidity", unit := "%",
      safeMin := 40, safeMax := 60, warningThreshold := 60, location := "Ward B" },
    { id := "wb-meth", type := .METHANE, label := "Ward B Methane", unit := "ppm",
      safeMin := 0, safeMax := 200, warningThreshold := 200, location := "Ward B" },
    { id := "wc-temp", type := .TEMPERATURE, label := "Ward C Temp", unit := "°C",
      safeMin := 22, safeMax := 26, warningThreshold := 26, location := "Ward C" },
    { id := "wc-hum", type := .HUMIDITY, label := "Ward C Humidity", unit := "%",
      safeMin := 40, safeMax := 60, warningThreshold := 60, location := "Ward C" },
    { id := "wc-meth", type := .METHANE, label := "Ward C Methane", unit := "ppm",
      safeMin := 0, safeMax := 200, warningThreshold := 200, location := "Ward C" } ]

/-- `HISTORY_LIMIT` (src/unnamed/part_005). -/
def HISTORY_LIMIT : Nat := 100

/-- `OFFLINE_THRESHOLD_MS` (src/unnamed/part_005): the short 10 s threshold
gating the aggregate connected indicator. -/
def OFFLINE_THRESHOLD_MS : Int := 10000

/-- `MAX_READINGS` (src/api/receive.ts): capacity of the history store. -/
def MAX_READINGS : Nat := 500

/-- JS template-string rendering `${reading.value}` of a reading value, for
the nonnegative one-decimal values produced by `Number(value.toFixed(1))`:
integers print with no decimal point, other one-decimal values print with a
single digit after the point. -/
def renderValue (q : ℚ) : String :=
  if q.den = 1 then toString q.num
  else toString (q.num / (q.den : Int)) ++ "." ++ toString ((q * 10).num % 10).natAbs

/-- Threshold evaluation: the severity/message branch of `checkThresholds`
(src/unnamed/part_007 lines 116-135, identical in src/App.tsx lines 63-82),
factored as the pure per-reading evaluation it is.  Returns `none` when no
alert is produced. -/
def evaluate (config : SensorConfig) (value : ℚ) : Option (Severity × String) :=
  if config.type = .METHANE then
    if value > config.warningThreshold * (6/5) then
      some (.CRITICAL,
        "CRITICAL METHANE LEAK at " ++ config.location ++ ": " ++
          renderValue value ++ config.unit)
    else if value ≥ config.warningThreshold then
      some (.WARNING,
        "Elevated Methane levels at " ++ config.location ++ ": " ++
          renderValue value ++ config.unit)
    else none
  else
    if value > config.warningThreshold then
      some ((if value > config.warningThreshold * (6/5) then .CRITICAL else .WARNING),
        sensorTypeName config.type ++ " High at " ++ config.location ++ ": " ++
          renderValue value ++ config.unit)
    else none

/-- `SENSOR_CONFIGS.find(c => c.id === reading.id)`, parameterised by the
configuration list (the source reads the module-level `SENSOR_CONFIGS`). -/
def findConfigIn (configs : List SensorConfig) (id : String) : Option SensorConfig :=
  configs.find? fun c => c.id = id

/-- C1: against a channel configuration with nonnegative warning threshold `w`
(all deployed thresholds are 26, 60 or 200), evaluation returns CRITICAL
exactly when `value > w * 1.2`; otherwise WARNING exactly when `value ≥ w` for
a methane channel or `value > w` for a non-methane channel; otherwise no
alert.  In particular a methane value exactly `w` yields WARNING and a
temperature value exactly `w` yields no alert. -/
theorem evaluate_severity_spec (config : SensorConfig) (value : ℚ)
    (hw : 0 ≤ config.warningThreshold) :
    ((evaluate config value).map Prod.fst = some .CRITICAL ↔
       value > config.warningThreshold * (6/5)) ∧
    ((evaluate config value).map Prod.fst = some .WARNING ↔
       (¬ value > config.warningThreshold * (6/5) ∧
         (if config.type = .METHANE then value ≥ config.warningThreshold
          else value > config.warningThreshold))) ∧
    (evaluate config value = none ↔
       (¬ value > config.warningThreshold * (6/5) ∧
         ¬ (if config.type = .METHANE then value ≥ config.warningThreshold
            else value > config.warningThreshold))) ∧
    (config.type = .METHANE →
      (evaluate config config.warningThreshold).map Prod.fst = some .WARNING) ∧
    (config.type = .TEMPERATURE →
      evaluate config config.warningThreshold = none) := by
  have hself : ¬ config.warningThreshold > config.warningThreshold * (6/5) := by
    nlinarith
  by_cases hm : config.type = .METHANE
  · refine ⟨?_, ?_, ?_, ?_, ?_⟩
    · simp only [evaluate, hm, reduceIte]
      split_ifs with h1 h2 <;> simp_all
    · simp only [evaluate, hm, reduceIte]
      split_ifs with h1 h2 <;> simp_all
    · simp only [evaluate, hm, reduceIte]
      split_ifs with h1 h2 <;> simp_all
    · intro _
      simp only [evaluate, hm, reduceIte]
      rw [if_neg hself, if_pos le_rfl]
      rfl
    · intro ht
      rw [hm] at ht
      exact absurd ht (by simp)
  · refine ⟨?_, ?_, ?_, ?_, ?_⟩
    · simp only [evaluate, if_neg hm]
      split_ifs with h1 h2 <;> simp_all <;> nlinarith
    · simp only [evaluate, if_neg hm, hm, reduceIte]
      split_ifs with h1 h2 <;> simp_all <;> nlinarith
    · simp only [evaluate, if_neg hm, hm, reduceIte]
      split_ifs with h1 h2 <;> simp_all <;> nlinarith
    · intro h
      exact absurd h hm
    · intro _
      simp only [evaluate, if_neg hm]
      rw [if_neg (lt_irrefl _)]

/-- The deployed Ward A methane channel configuration (the `wa-meth` entry of
`SENSOR_CONFIGS`). -/
def wardAMethane : SensorConfig :=
  { id := "wa-meth", type := .METHANE, label := "Ward A Methane", unit := "ppm",
    safeMin := 0, safeMax := 200, warningThreshold := 200, location := "Ward A" }

/-- Witness for C1, at the deployed Ward A methane configuration and the
boundary value 200 (= its warning threshold): evaluation yields WARNING. -/
theorem evaluate_severity_spec_witness :
    (0 : ℚ) ≤ wardAMethane.warningThreshold ∧
    ((evaluate wardAMethane 200).map Prod.fst = some .WARNING ↔
      (¬ (200 : ℚ) > wardAMethane.warningThreshold * (6/5) ∧
        (if wardAMethane.type = .METHANE then (200 : ℚ) ≥ wardAMethane.warningThreshold
         else (200 : ℚ) > wardAMethane.warningThreshold))) := by
  refine ⟨by norm_num [wardAMethane], ?_⟩
  exact (evaluate_severity_spec wardAMethane 200 (by norm_num [wardAMethane])).2.1

/-! ## Alert Ledger: `checkThresholds` (src/unnamed/part_007 lines 106-186) -/

/-- The alert object built for a qualifying reading
(`id: reading.id + "-" + now`, part_007 lines 139-147). -/
def mkAlert (r : SensorReading) (now : Int) (sev : Severity) (msg : String) : Alert :=
  { id := r.id ++ "-" ++ toString now, sensorId := r.id, message := msg,
    severity := sev, timestamp := now, acknowledged := false }

/-- The alert-generation pass of `checkThresholds` (part_007 lines 110-149):
one alert object per new reading whose evaluation produces a severity. -/
def generatedAlerts (configs : List SensorConfig) (newReadings : List SensorReading)
    (now : Int) : List Alert :=
  newReadings.filterMap fun r =>
    (findConfigIn configs r.id).bind fun config =>
      (evaluate config r.value).map fun sm => mkAlert r now sm.1 sm.2

/-- The notifier calls of the same pass (part_007 lines 151-164): the siren and
pop-up fire once per reading whose evaluation is CRITICAL, before any
debounce check. -/
def notifications (configs : List SensorConfig)
    (newReadings : List SensorReading) : List String :=
  newReadings.filterMap fun r =>
    (findConfigIn configs r.id).bind fun config =>
      (evaluate config r.value).bind fun sm =>
        if sm.1 = .CRITICAL then some sm.2 else none

/-- The debounce test (part_007 lines 174-178): an existing alert for the same
sensor, unacknowledged, created less than 10 s before the new alert. -/
def debounceBlocked (acc : List Alert) (newAlert : Alert) : Bool :=
  acc.any fun a =>
    a.sensorId == newAlert.sensorId && !a.acknowledged &&
      decide (newAlert.timestamp - a.timestamp < 10000)

/-- One step of the alert-accumulation loop (part_007 lines 172-182). -/
def debounceInsert (acc : List Alert) (newAlert : Alert) : List Alert :=
  if debounceBlocked acc newAlert then acc else acc ++ [newAlert]

/-- The ledger comparator `(a, b) => b.timestamp - a.timestamp`
(newest first, part_007 line 183). -/
def alertLE (a b : Alert) : Bool := decide (b.timestamp ≤ a.timestamp)

/-- `checkThresholds` (part_007 lines 106-186): evaluates each new reading,
fires the notifier once per CRITICAL evaluation, then folds the generated
alerts into the ledger under the debounce rule and re-sorts newest-first
(the ledger is left untouched when nothing was generated).  Returns the
updated ledger and the list of notified messages. -/
def checkThresholds (configs : List SensorConfig) (prev : List Alert)
    (newReadings : List SensorReading) (now : Int) : List Alert × List String :=
  let gen := generatedAlerts configs newReadings now
  let alerts :=
    if gen.isEmpty then prev else (gen.foldl debounceInsert prev).mergeSort alertLE
  (alerts, notifications configs newReadings)

/-- `dismissAlert` (part_007 lines 247-249): acknowledge the alert with the
given id. -/
def dismissAlert (alerts : List Alert) (id : String) : List Alert :=
  alerts.map fun a => if a.id = id then { a with acknowledged := true } else a

/-- `debounceBlocked` unfolded to its proposition. -/
theorem debounceBlocked_iff (acc : List Alert) (na : Alert) :
    debounceBlocked acc na = true ↔
      ∃ a ∈ acc, a.sensorId = na.sensorId ∧ a.acknowledged = false ∧
        na.timestamp - a.timestamp < 10000 := by
  simp [debounceBlocked, List.any_eq_true, Bool.and_eq_true, beq_iff_eq,
    Bool.not_eq_true', decide_eq_true_eq, and_assoc]

/-- `checkThresholds` over a single qualifying reading reduces to one debounced
insertion followed by the newest-first re-sort. -/
theorem checkThresholds_single (configs : List SensorConfig) (prev : List Alert)
    (r : SensorReading) (now : Int) (config : SensorConfig) (sev : Severity)
    (msg : String) (hc : findConfigIn configs r.id = some config)
    (he : evaluate config r.value = some (sev, msg)) :
    (checkThresholds configs prev [r] now).1 =
      (debounceInsert prev (mkAlert r now sev msg)).mergeSort alertLE := by
  simp [checkThresholds, generatedAlerts, hc, he]

/-- C2: when a severity is produced for a channel, a new Alert joins the ledger
iff no existing Alert for that channel is unacknowledged and less than 10 s
old; two qualifying readings within 10 s with the first alert unacknowledged
yield one Alert, while acknowledging the first in between yields two. -/
theorem alert_debounce_spec (configs : List SensorConfig) (prev : List Alert)
    (r r2 : SensorReading) (now now2 : Int) (config : SensorConfig)
    (sev sev2 : Severity) (msg msg2 : String)
    (hc : findConfigIn configs r.id = some config)
    (he : evaluate config r.value = some (sev, msg))
    (hid : r2.id = r.id)
    (he2 : evaluate config r2.value = some (sev2, msg2))
    (h10 : now2 - now < 10000) :
    ((checkThresholds configs prev [r] now).1.Perm
      (if ∃ a ∈ prev, a.sensorId = r.id ∧ a.acknowledged = false ∧
            now - a.timestamp < 10000
       then prev else prev ++ [mkAlert r now sev msg])) ∧
    ((checkThresholds configs
        ((checkThresholds configs [] [r] now).1) [r2] now2).1).length = 1 ∧
    ((checkThresholds configs
        (dismissAlert ((checkThresholds configs [] [r] now).1)
          (mkAlert r now sev msg).id) [r2] now2).1).length = 2 := by
  have hc2 : findConfigIn configs r2.id = some config := by rw [hid]; exact hc
  have t1 : (checkThresholds configs [] [r] now).1 = [mkAlert r now sev msg] := by
    rw [checkThresholds_single configs [] r now config sev msg hc he]
    simp [debounceInsert, debounceBlocked]
  refine ⟨?_, ?_, ?_⟩
  · rw [checkThresholds_single configs prev r now config sev msg hc he]
    refine (List.mergeSort_perm _ _).trans ?_
    rw [debounceInsert]
    by_cases hb : ∃ a ∈ prev, a.sensorId = r.id ∧ a.acknowledged = false ∧
        now - a.timestamp < 10000
    · rw [if_pos ((debounceBlocked_iff prev _).mpr (by simpa [mkAlert] using hb)),
        if_pos hb]
    · rw [if_neg (by
          intro hbt
          exact hb (by simpa [mkAlert] using (debounceBlocked_iff prev _).mp hbt)),
        if_neg hb]
  · rw [t1, checkThresholds_single configs _ r2 now2 config sev2 msg2 hc2 he2]
    simp [debounceInsert, debounceBlocked, mkAlert, hid, h10]
  · rw [t1, checkThresholds_single configs _ r2 now2 config sev2 msg2 hc2 he2]
    simp [dismissAlert, debounceInsert, debounceBlocked, mkAlert, hid, h10]

/-- A concrete qualifying methane reading (300 ppm at Ward A, timestamp 0). -/
def r300 : SensorReading :=
  { id := "wa-meth", type := .METHANE, value := 300, unit := "ppm",
    timestamp := 0, location := "Ward A" }

/-- A second concrete qualifying methane reading (250 ppm, timestamp 2000). -/
def r250 : SensorReading :=
  { id := "wa-meth", type := .METHANE, value := 250, unit := "ppm",
    timestamp := 2000, location := "Ward A" }

/-- Witness for C2: two CRITICAL methane readings 2 s apart on channel
`wa-meth`, starting from an empty ledger. -/
theorem alert_debounce_spec_witness :
    findConfigIn SENSOR_CONFIGS r300.id = some wardAMethane ∧
    evaluate wardAMethane r300.value =
      some (.CRITICAL, "CRITICAL METHANE LEAK at Ward A: 300ppm") ∧
    r250.id = r300.id ∧
    evaluate wardAMethane r250.value =
      some (.CRITICAL, "CRITICAL METHANE LEAK at Ward A: 250ppm") ∧
    (3000 : Int) - 1000 < 10000 ∧
    (((checkThresholds SENSOR_CONFIGS [] [r300] 1000).1.Perm
      (if ∃ a ∈ ([] : List Alert), a.sensorId = r300.id ∧ a.acknowledged = false ∧
            1000 - a.timestamp < 10000
       then ([] : List Alert)
       else [] ++ [mkAlert r300 1000 .CRITICAL
          "CRITICAL METHANE LEAK at Ward A: 300ppm"])) ∧
     ((checkThresholds SENSOR_CONFIGS
        ((checkThresholds SENSOR_CONFIGS [] [r300] 1000).1) [r250] 3000).1).length = 1 ∧
     ((checkThresholds SENSOR_CONFIGS
        (dismissAlert ((checkThresholds SENSOR_CONFIGS [] [r300] 1000).1)
          (mkAlert r300 1000 .CRITICAL
            "CRITICAL METHANE LEAK at Ward A: 300ppm").id) [r250] 3000).1).length = 2) := by
  have he : evaluate wardAMethane r300.value =
      some (.CRITICAL, "CRITICAL METHANE LEAK at Ward A: 300ppm") := by
    rw [evaluate]
    norm_num [wardAMethane, r300, renderValue]
    rfl
  have he2 : evaluate wardAMethane r250.value =
      some (.CRITICAL, "CRITICAL METHANE LEAK at Ward A: 250ppm") := by
    rw [evaluate]
    norm_num [wardAMethane, r250, renderValue]
    rfl
  exact ⟨by decide, he, by decide, he2, by decide,
    alert_debounce_spec SENSOR_CONFIGS [] r300 r250 1000 3000 wardAMethane
      .CRITICAL .CRITICAL "CRITICAL METHANE LEAK at Ward A: 300ppm"
      "CRITICAL METHANE LEAK at Ward A: 250ppm"
      (by decide) he (by decide) he2 (by decide)⟩

/-! ## Bounded History Store (src/api/receive.ts, src/unnamed/part_003) -/

/-- `arr.slice(-n)` for `n ≥ 1`: the last `n` elements. -/
def jsTakeLast {α : Type} (l : List α) (n : Nat) : List α := l.drop (l.length - n)

/-- The append step of the history store (src/api/receive.ts lines 57-69,
src/unnamed/part_003 lines 58-64): push the new entry, then keep only the last
`MAX_READINGS` entries when over capacity. -/
def appendReading {α : Type} (store : List α) (r : α) : List α :=
  let store2 := store ++ [r]
  if store2.length > MAX_READINGS then jsTakeLast store2 MAX_READINGS else store2

/-- C3: for every sequence of appends (starting empty), the history store holds
exactly the last-`MAX_READINGS` contiguous suffix of all appends in arrival
order (`drop` of the full sequence), and so never exceeds the capacity 500. -/
theorem historyStore_bounded_suffix {α : Type} (rs : List α) :
    rs.foldl appendReading [] = rs.drop (rs.length - MAX_READINGS) ∧
    (rs.foldl appendReading []).length ≤ MAX_READINGS := by
  have main : rs.foldl appendReading [] = rs.drop (rs.length - MAX_READINGS) := by
    induction rs using List.reverseRecOn with
    | nil => simp
    | append_singleton rs r ih =>
      rw [List.foldl_append, List.foldl_cons, List.foldl_nil, ih, appendReading]
      simp only [MAX_READINGS, jsTakeLast] at *
      have haux : (rs ++ [r]).length = rs.length + 1 := by simp
      by_cases h : rs.length + 1 ≤ 500
      · have h0 : rs.length - 500 = 0 := by omega
        have h1 : rs.length + 1 - 500 = 0 := by omega
        rw [h0, List.drop_zero]
        rw [if_neg (by rw [haux]; omega)]
        rw [haux, h1, List.drop_zero]
      · have hlen : (rs.drop (rs.length - 500) ++ [r]).length = 501 := by
          simp only [List.length_append, List.length_drop, List.length_cons,
            List.length_nil]
          omega
        rw [if_pos (by rw [hlen]; omega)]
        rw [hlen]
        have h501 : (501 : Nat) - 500 = 1 := by norm_num
        rw [h501]
        rw [List.drop_append_of_le_length (by simp [List.length_drop]; omega)]
        rw [List.drop_drop]
        rw [List.drop_append_of_le_length (by omega)]
        have hamt : (rs ++ [r]).length - 500 = rs.length - 500 + 1 := by
          rw [haux]
          omega
        rw [hamt]
  refine ⟨main, ?_⟩
  rw [main, List.length_drop]
  omega

/-! ## Reading Validator / ingestion endpoint (src/api/receive.ts, first
handler, lines 34-80) -/

/-- A JSON value as it can appear in a measurement field of a request body.
JSON numbers are always finite, so a rational carrier is exact: a payload
field for which `typeof x === "number"` holds is precisely a `num`. -/
inductive JsonVal
  | num (q : ℚ)
  | str (s : String)
  | boolean (b : Bool)
  | jnull
deriving DecidableEq, Repr

/-- JS truthiness of a `JsonVal`. -/
def JsonVal.truthy : JsonVal → Bool
  | .num q => q != 0
  | .str s => s != ""
  | .boolean b => b
  | .jnull => false

/-- `typeof x === "number"`. -/
def JsonVal.isNumber : JsonVal → Bool
  | .num _ => true
  | _ => false

/-- `typeof data.f === "number"` for an optional field (`undefined` when the
field is absent). -/
def isNumField : Option JsonVal → Bool
  | some v => v.isNumber
  | none => false

/-- `x || default` for an optional JSON field. -/
def jsOrVal (v : Option JsonVal) (d : JsonVal) : JsonVal :=
  match v with
  | some x => if x.truthy then x else d
  | none => d

/-- `x || default` for an optional string field (`""` is falsy). -/
def jsOrStr (v : Option String) (d : String) : String :=
  match v with
  | some s => if s = "" then d else s
  | none => d

/-- `data.timestamp || Date.now()` (`0` is falsy). -/
def jsOrTime (v : Option Int) (now : Int) : Int :=
  match v with
  | some t => if t = 0 then now else t
  | none => now

/-- JS truthiness of the optional `error` string (`!data.error` is true for an
absent or empty error). -/
def errTruthy (e : Option String) : Bool :=
  match e with
  | some s => s != ""
  | none => false

/-- The inbound request body of the ingestion endpoint: every field may be
absent, and the measurement fields may hold any JSON value. -/
structure RawPayload where
  device_id : Option String := none
  location : Option String := none
  methane : Option JsonVal := none
  temperature : Option JsonVal := none
  humidity : Option JsonVal := none
  timestamp : Option Int := none
  error : Option String := none
deriving DecidableEq, Repr

/-- A stored reading as built by the ingestion endpoint (the `SensorData`
record of src/api/receive.ts, with defaults applied).  The measurement fields
keep their JSON values: `data.methane || 0` passes any truthy value through. -/
structure StoredReading where
  device_id : String
  location : String
  methane : JsonVal
  temperature : JsonVal
  humidity : JsonVal
  timestamp : Int
  error : Option String := none
deriving DecidableEq, Repr

/-- The record the ingestion endpoint builds on acceptance
(src/api/receive.ts lines 47-55). -/
def buildReading (data : RawPayload) (now : Int) : StoredReading :=
  { device_id := jsOrStr data.device_id "esp32-001",
    location := jsOrStr data.location "Ward A",
    methane := jsOrVal data.methane (.num 0),
    temperature := jsOrVal data.temperature (.num 0),
    humidity := jsOrVal data.humidity (.num 0),
    timestamp := jsOrTime data.timestamp now,
    error := data.error }

/-- The ingestion endpoint's response: success acknowledgment echoing the
stored record, or the 400 rejection. -/
inductive ReceiveResult
  | ok (reading : StoredReading)
  | invalid (message : String)
deriving DecidableEq, Repr

/-- HTTP status of a `ReceiveResult`. -/
def ReceiveResult.status : ReceiveResult → Nat
  | .ok _ => 200
  | .invalid _ => 400

/-- The POST branch of the ingestion handler (src/api/receive.ts lines 34-80):
reject with 400 unless an error string is present or all three measurement
fields are numbers; otherwise build the defaulted record, append it to the
capped store, and echo it. -/
def receiveHandler (data : RawPayload) (now : Int) (store : List StoredReading) :
    ReceiveResult × List StoredReading :=
  if !errTruthy data.error &&
      (!isNumField data.methane || !isNumField data.temperature ||
        !isNumField data.humidity) then
    (.invalid
      "Invalid data format. Required: methane, temperature, humidity (numbers) OR error message",
      store)
  else
    let reading := buildReading data now
    (.ok reading, appendReading store reading)

/-- C6: a record is rejected with 400 iff it carries no (non-empty) error
string and some measurement field is not a number (JSON numbers being exactly
the finite numbers); nothing is stored on rejection; on acceptance the
defaulted record is stored and echoed, with missing `device_id`, `location`
and `timestamp` defaulted to `"esp32-001"`, `"Ward A"` and the receipt time. -/
theorem receive_validation_spec (data : RawPayload) (now : Int)
    (store : List StoredReading) :
    ((receiveHandler data now store).1.status = 400 ↔
      (errTruthy data.error = false ∧
        (isNumField data.methane = false ∨ isNumField data.temperature = false ∨
          isNumField data.humidity = false))) ∧
    ((receiveHandler data now store).1.status = 400 →
      (receiveHandler data now store).2 = store) ∧
    ((receiveHandler data now store).1.status = 200 →
      ((receiveHandler data now store).1 = .ok (buildReading data now) ∧
        (receiveHandler data now store).2 =
          appendReading store (buildReading data now))) ∧
    (data.device_id = none → (buildReading data now).device_id = "esp32-001") ∧
    (data.location = none → (buildReading data now).location = "Ward A") ∧
    (data.timestamp = none → (buildReading data now).timestamp = now) := by
  refine ⟨?_, ?_, ?_, ?_, ?_, ?_⟩
  · rw [receiveHandler]
    split_ifs with h
    · simp only [ReceiveResult.status, true_iff]
      simp only [Bool.and_eq_true, Bool.or_eq_true, Bool.not_eq_true'] at h
      tauto
    · simp only [ReceiveResult.status]
      constructor
      · intro hx
        norm_num at hx
      · intro hx
        refine absurd ?_ h
        simp only [Bool.and_eq_true, Bool.or_eq_true, Bool.not_eq_true']
        tauto
  · rw [receiveHandler]
    split_ifs with h
    · intro _
      rfl
    · intro hx
      simp only [ReceiveResult.status] at hx
      norm_num at hx
  · rw [receiveHandler]
    split_ifs with h
    · intro hx
      simp only [ReceiveResult.status] at hx
      norm_num at hx
    · intro _
      exact ⟨rfl, rfl⟩
  · intro h
    simp [buildReading, jsOrStr, h]
  · intro h
    simp [buildReading, jsOrStr, h]
  · intro h
    simp [buildReading, jsOrTime, h]

/-- Witness for C6: a payload with a missing (non-numeric) methane field and
no error string is rejected with 400 and the store is unchanged. -/
theorem receive_validation_spec_witness :
    (receiveHandler { temperature := some (.num 24), humidity := some (.num 50) } 77 []).1.status
        = 400 ∧
    (receiveHandler { temperature := some (.num 24), humidity := some (.num 50) } 77 []).2
        = [] := by
  have h := receive_validation_spec
    { temperature := some (.num 24), humidity := some (.num 50) } 77 []
  have h400 : (receiveHandler
      { temperature := some (.num 24), humidity := some (.num 50) } 77 []).1.status = 400 :=
    h.1.mpr (by decide)
  exact ⟨h400, h.2.1 h400⟩

/-! ## History Store query endpoint (src/api/readings.ts lines 32-61,
identical logic in src/unnamed/part_002 lines 63-91) -/

/-- `arr.slice(start)` with a possibly negative `start`. -/
def jsSlice {α : Type} (l : List α) (start : Int) : List α :=
  if start < 0 then l.drop (l.length - (-start).toNat)
  else l.drop (min start.toNat l.length)

/-- `parseInt(limit) || 100`: the parsed value, with `NaN` (modelled `none`)
and `0` falling back to the default. -/
def jsOrInt (v : Option Int) (d : Int) : Int :=
  match v with
  | some x => if x = 0 then d else x
  | none => d

/-- The location filter (src/api/readings.ts lines 40-43): applied only when
the query parameter is a truthy (non-empty) string. -/
def locFilter (store : List StoredReading) (location : Option String) :
    List StoredReading :=
  match location with
  | some loc => if loc = "" then store else store.filter fun r => r.location == loc
  | none => store

/-- The `since` filter (src/api/readings.ts lines 45-51): strict timestamp
lower bound, applied only when the parameter parses to a number. -/
def sinceFilter (store : List StoredReading) (since : Option Int) :
    List StoredReading :=
  match since with
  | some t => store.filter fun r => decide (r.timestamp > t)
  | none => store

/-- The GET response of the readings endpoint. -/
structure QueryResponse where
  count : Nat
  readings : List StoredReading
deriving DecidableEq, Repr

/-- The GET branch of the readings endpoint (src/api/readings.ts lines 32-61):
filter by location and `since`, compute `limitNum = min(parseInt(limit) || 100,
500)`, and return `readings.slice(-limitNum)` together with its count.  The
store is returned in its stored arrival order; no re-sorting happens. -/
def readingsQuery (store : List StoredReading) (location : Option String)
    (since : Option Int) (limitp : Option Int) : QueryResponse :=
  let r2 := sinceFilter (locFilter store location) since
  let limitNum := min (jsOrInt limitp 100) 500
  let out := jsSlice r2 (-limitNum)
  { count := out.length, readings := out }

/-- The location filter only drops entries. -/
theorem locFilter_sublist (store : List StoredReading) (location : Option String) :
    (locFilter store location).Sublist store := by
  cases location with
  | none => exact List.Sublist.refl _
  | some loc =>
    rw [locFilter]
    split_ifs
    · exact List.Sublist.refl _
    · exact List.filter_sublist _

/-- The `since` filter only drops entries. -/
theorem sinceFilter_sublist (store : List StoredReading) (since : Option Int) :
    (sinceFilter store since).Sublist store := by
  cases since with
  | none => exact List.Sublist.refl _
  | some t => exact List.filter_sublist _

/-- With a positive effective limit, the returned list is the
last-`limitNum` suffix of the filtered store. -/
theorem readingsQuery_out (store : List StoredReading) (location : Option String)
    (since : Option Int) (limitp : Option Int) (h : 0 < jsOrInt limitp 100) :
    (readingsQuery store location since limitp).readings =
      (sinceFilter (locFilter store location) since).drop
        ((sinceFilter (locFilter store location) since).length -
          (min (jsOrInt limitp 100) 500).toNat) := by
  have hL : (0 : Int) < min (jsOrInt limitp 100) 500 := by
    rw [lt_min_iff]
    exact ⟨h, by norm_num⟩
  rw [readingsQuery, jsSlice]
  rw [if_pos (by omega)]
  simp

/-- Shared bound: the returned list never exceeds the effective limit. -/
theorem readingsQuery_length_le (store : List StoredReading)
    (location : Option String) (since : Option Int) (limitp : Option Int)
    (h : 0 < jsOrInt limitp 100) :
    ((readingsQuery store location since limitp).readings.length : Int) ≤
      min (jsOrInt limitp 100) 500 := by
  rw [readingsQuery_out store location since limitp h, List.length_drop]
  have hL : (0 : Int) < min (jsOrInt limitp 100) 500 := by
    rw [lt_min_iff]
    exact ⟨h, by norm_num⟩
  omega

/-- C5 (amended): with a positive parsed limit (default 100 when absent), the
readings endpoint returns at most `min(limit, 500)` readings matching the
location and strict-`since` filters, with their count, as a subsequence of the
store in stored arrival order; the output is in ascending timestamp order
whenever the stored sequence is (the endpoint does not re-sort). -/
theorem readingsQuery_spec (store : List StoredReading) (locp : Option String)
    (sincep limitp : Option Int) (hpos : 0 < jsOrInt limitp 100) :
    (readingsQuery store locp sincep limitp).count =
      (readingsQuery store locp sincep limitp).readings.length ∧
    ((readingsQuery store locp sincep limitp).readings.length : Int) ≤
      min (jsOrInt limitp 100) 500 ∧
    (readingsQuery store locp sincep limitp).readings.Sublist store ∧
    (∀ loc, locp = some loc → loc ≠ "" →
      ((readingsQuery store locp sincep limitp).readings.all
        fun r => r.location == loc) = true) ∧
    (∀ t, sincep = some t →
      ((readingsQuery store locp sincep limitp).readings.all
        fun r => decide (r.timestamp > t)) = true) ∧
    (List.Pairwise (fun a b : StoredReading => a.timestamp ≤ b.timestamp) store →
      List.Pairwise (fun a b : StoredReading => a.timestamp ≤ b.timestamp)
        (readingsQuery store locp sincep limitp).readings) := by
  have hout := readingsQuery_out store locp sincep limitp hpos
  have hsub : (readingsQuery store locp sincep limitp).readings.Sublist store := by
    rw [hout]
    exact ((List.drop_sublist _ _).trans
      (sinceFilter_sublist _ _)).trans (locFilter_sublist _ _)
  refine ⟨rfl, readingsQuery_length_le store locp sincep limitp hpos, hsub, ?_, ?_, ?_⟩
  · intro loc hl hne
    subst hl
    rw [List.all_eq_true]
    intro r hr
    rw [hout] at hr
    have hr2 := (List.drop_sublist _ _).subset hr
    have hr1 := (sinceFilter_sublist _ _).subset hr2
    rw [locFilter, if_neg hne] at hr1
    exact (List.mem_filter.mp hr1).2
  · intro t ht
    subst ht
    rw [List.all_eq_true]
    intro r hr
    rw [hout] at hr
    have hr2 := (List.drop_sublist _ _).subset hr
    rw [sinceFilter] at hr2
    exact (List.mem_filter.mp hr2).2
  · intro hsorted
    exact hsorted.sublist hsub

/-- Witness for C5: a two-element store (ascending timestamps), no filters. -/
theorem readingsQuery_spec_witness :
    (0 : Int) < jsOrInt none 100 ∧
    ((readingsQuery
        [{ device_id := "esp32-001", location := "Ward A", methane := .num 100,
           temperature := .num 24, humidity := .num 50, timestamp := 1000 },
         { device_id := "esp32-001", location := "Ward A", methane := .num 120,
           temperature := .num 25, humidity := .num 51, timestamp := 2000 }]
        none none none).count =
      (readingsQuery
        [{ device_id := "esp32-001", location := "Ward A", methane := .num 100,
           temperature := .num 24, humidity := .num 50, timestamp := 1000 },
         { device_id := "esp32-001", location := "Ward A", methane := .num 120,
           temperature := .num 25, humidity := .num 51, timestamp := 2000 }]
        none none none).readings.length) := by
  refine ⟨by norm_num [jsOrInt], ?_⟩
  exact (readingsQuery_spec _ none none none (by norm_num [jsOrInt])).1

/-- A stored reading with timestamp 2000, for the ordering counterexample. -/
def sLate : StoredReading :=
  { device_id := "esp32-001", location := "Ward A", methane := .num 100,
    temperature := .num 24, humidity := .num 50, timestamp := 2000 }

/-- A stored reading with timestamp 1000, delivered after `sLate`. -/
def sEarly : StoredReading :=
  { device_id := "esp32-002", location := "Ward A", methane := .num 110,
    temperature := .num 25, humidity := .num 51, timestamp := 1000 }

/-- Counterexample to C5 as stated: the endpoint returns readings in stored
arrival order, not ascending timestamp order — with the store holding
timestamps `[2000, 1000]` (arrival order), the unfiltered query returns them
unchanged, which is not ascending. -/
theorem readingsQuery_order_counterexample :
    (readingsQuery [sLate, sEarly] none none none).readings = [sLate, sEarly] ∧
    ¬ List.Pairwise (fun a b : StoredReading => a.timestamp ≤ b.timestamp)
        (readingsQuery [sLate, sEarly] none none none).readings := by
  have hout : (readingsQuery [sLate, sEarly] none none none).readings =
      [sLate, sEarly] := by
    rw [readingsQuery_out _ none none none (by norm_num [jsOrInt])]
    norm_num [sinceFilter, locFilter, jsOrInt]
  refine ⟨hout, ?_⟩
  rw [hout]
  intro hp
  have := List.rel_of_pairwise_cons hp (List.mem_singleton.mpr rfl)
  norm_num [sLate, sEarly] at this

/-- C10: a `limit` query parameter parsing to `0` or `NaN` is falsy, so the
default of 100 applies: the query behaves exactly as `limit=100` (and returns
up to 100 readings rather than zero; on a 150-entry store it returns 100). -/
theorem limit_falsy_default_spec (store : List StoredReading)
    (locp : Option String) (sincep : Option Int) :
    readingsQuery store locp sincep (some 0) =
      readingsQuery store locp sincep (some 100) ∧
    readingsQuery store locp sincep none =
      readingsQuery store locp sincep (some 100) ∧
    ((readingsQuery store locp sincep (some 0)).readings.length : Int) ≤ 100 ∧
    (readingsQuery (List.replicate 150 sLate) none none (some 0)).readings.length
      = 100 := by
  refine ⟨rfl, rfl, ?_, ?_⟩
  · have h := readingsQuery_length_le store locp sincep (some 0)
      (by norm_num [jsOrInt])
    simpa [jsOrInt] using h
  · rw [readingsQuery_out _ none none (some 0) (by norm_num [jsOrInt])]
    norm_num [sinceFilter, locFilter, jsOrInt]
    decide

/-! ## Polling Reconciler: `fetchSensorData` (src/unnamed/part_007
lines 188-234) -/

/-- The raw reading record returned by the readings endpoint to the client
(the `ApiSensorData` interface of part_007 lines 15-23). -/
structure ApiSensorData where
  device_id : String
  location : String
  methane : ℚ
  temperature : ℚ
  humidity : ℚ
  timestamp : Int
  error : Option String := none
deriving DecidableEq, Repr

/-- The measurement picked for a config's type (part_007 lines 86-89). -/
def measureFor (t : SensorType) (d : ApiSensorData) : ℚ :=
  match t with
  | .METHANE => d.methane
  | .TEMPERATURE => d.temperature
  | .HUMIDITY => d.humidity

/-- `Number(value.toFixed(1))`: rounding to one decimal place. -/
def round1 (q : ℚ) : ℚ := (⌊q * 10 + 1/2⌋ : ℚ) / 10

/-- `convertApiDataToReadings` (part_007 lines 77-104): expand each raw record
into one channel-specific reading per configuration at its location. -/
def convertApiDataToReadings (configs : List SensorConfig)
    (apiData : List ApiSensorData) : List SensorReading :=
  apiData.flatMap fun d =>
    (configs.filter fun c => c.location == d.location).map fun config =>
      { id := config.id, type := config.type,
        value := round1 (measureFor config.type d), unit := config.unit,
        timestamp := d.timestamp, location := d.location, error := d.error }

/-- The dedup key `r.id + "-" + r.timestamp` (part_007 line 212). -/
def readingKey (r : SensorReading) : String :=
  r.id ++ "-" ++ toString r.timestamp

/-- The `seen`-set dedup filter (part_007 lines 210-216): keep the first
occurrence of each key; a key is recorded only when its entry is kept. -/
def dedupByKey : List SensorReading → List String → List SensorReading
  | [], _ => []
  | r :: rest, seen =>
    if readingKey r ∈ seen then dedupByKey rest seen
    else r :: dedupByKey rest (readingKey r :: seen)

/-- The readings comparator `(a, b) => a.timestamp - b.timestamp`
(ascending). -/
def readingLE (a b : SensorReading) : Bool := decide (a.timestamp ≤ b.timestamp)

/-- The merge step of `fetchSensorData` (part_007 lines 207-218): append the
fetched batch, dedup by `(id, timestamp)` key, sort ascending by timestamp,
and keep the last `HISTORY_LIMIT * SENSOR_CONFIGS.length` entries. -/
def mergeReadings (prev newReadings : List SensorReading) : List SensorReading :=
  jsTakeLast ((dedupByKey (prev ++ newReadings) []).mergeSort readingLE)
    (HISTORY_LIMIT * SENSOR_CONFIGS.length)

/-- The client state touched by a polling tick. -/
structure ClientState where
  readings : List SensorReading
  alerts : List Alert
deriving DecidableEq, Repr

/-- One polling tick of `fetchSensorData` (part_007 lines 188-234), in the
branch where the response is OK and carries a nonempty batch: convert the
batch, merge it into the local readings, and run `checkThresholds` over ALL
the fetched readings — the source deliberately re-evaluates the whole batch
("Check thresholds for ALL new readings to ensure history is captured"), not
only the newly merged entries.  Returns the new state and the notified
messages. -/
def fetchTick (s : ClientState) (apiData : List ApiSensorData) (now : Int) :
    ClientState × List String :=
  let newReadings := convertApiDataToReadings SENSOR_CONFIGS apiData
  let res := checkThresholds SENSOR_CONFIGS s.alerts newReadings now
  ({ readings := mergeReadings s.readings newReadings, alerts := res.1 }, res.2)

/-- Entries of the dedup output have pairwise distinct keys, none in `seen`. -/
theorem dedupByKey_nodup (l : List SensorReading) (seen : List String) :
    (dedupByKey l seen).Pairwise (fun a b => readingKey a ≠ readingKey b) ∧
    ∀ r ∈ dedupByKey l seen, readingKey r ∉ seen := by
  induction l generalizing seen with
  | nil => exact ⟨List.Pairwise.nil, by simp [dedupByKey]⟩
  | cons r rest ih =>
    by_cases h : readingKey r ∈ seen
    · rw [dedupByKey, if_pos h]
      exact ih seen
    · rw [dedupByKey, if_neg h]
      have ihr := ih (readingKey r :: seen)
      refine ⟨List.Pairwise.cons ?_ ihr.1, ?_⟩
      · intro b hb
        have := ihr.2 b hb
        simp only [List.mem_cons, not_or] at this
        exact fun hk => this.1 hk.symm
      · intro x hx
        rcases List.mem_cons.mp hx with hx | hx
        · rw [hx]
          exact h
        · have := ihr.2 x hx
          simp only [List.mem_cons, not_or] at this
          exact this.2

/-- When every key of the list is already in `seen`, dedup drops everything. -/
theorem dedupByKey_eq_nil (l : List SensorReading) (seen : List String)
    (h : ∀ r ∈ l, readingKey r ∈ seen) : dedupByKey l seen = [] := by
  induction l with
  | nil => rfl
  | cons r rest ih =>
    rw [dedupByKey, if_pos (h r (List.mem_cons_self r rest))]
    exact ih fun x hx => h x (List.mem_cons_of_mem r hx)

/-- Dedup of `s ++ nr` returns `s` unchanged when `s` is key-nodup, disjoint
from `seen`, and every key of `nr` already occurs in `s` or `seen`. -/
theorem dedupByKey_append_eq (s nr : List SensorReading) (seen : List String)
    (h1 : s.Pairwise fun a b => readingKey a ≠ readingKey b)
    (h2 : ∀ r ∈ s, readingKey r ∉ seen)
    (h3 : ∀ r ∈ nr, readingKey r ∈ s.map readingKey ∨ readingKey r ∈ seen) :
    dedupByKey (s ++ nr) seen = s := by
  induction s generalizing seen with
  | nil =>
    rw [List.nil_append]
    exact dedupByKey_eq_nil nr seen fun r hr => by
      rcases h3 r hr with h | h
      · simp at h
      · exact h
  | cons a s' ih =>
    rw [List.cons_append, dedupByKey, if_neg (h2 a (List.mem_cons_self a s'))]
    congr 1
    refine ih (readingKey a :: seen) (List.Pairwise.of_cons h1) ?_ ?_
    · intro r hr
      simp only [List.mem_cons, not_or]
      exact ⟨fun hk => List.rel_of_pairwise_cons h1 hr hk.symm,
        h2 r (List.mem_cons_of_mem a hr)⟩
    · intro r hr
      rcases h3 r hr with h | h
      · simp only [List.map_cons, List.mem_cons] at h
        rcases h with h | h
        · right
          rw [h]
          exact List.mem_cons_self _ _
        · exact Or.inl h
      · exact Or.inr (List.mem_cons_of_mem _ h)

/-- C4 (amended): merging keeps the local reading state free of duplicate
`(id, timestamp)` keys, and re-delivering a batch whose keys are all already
present leaves the merged state unchanged; but the Threshold Evaluator runs
over the whole fetched batch each tick, so a re-delivered qualifying reading
is suppressed only while an unacknowledged alert for its channel is younger
than 10 s — within that window no duplicate Alert is created. -/
theorem reconciler_idempotence_amended (prev nr : List SensorReading)
    (alerts : List Alert) (r : SensorReading) (now : Int)
    (config : SensorConfig) (sev : Severity) (msg : String)
    (hsorted : prev.Pairwise fun a b => readingLE a b = true)
    (hnodup : prev.Pairwise fun a b => readingKey a ≠ readingKey b)
    (hlen : prev.length ≤ HISTORY_LIMIT * SENSOR_CONFIGS.length)
    (hkeys : ∀ x ∈ nr, readingKey x ∈ prev.map readingKey)
    (hc : findConfigIn SENSOR_CONFIGS r.id = some config)
    (he : evaluate config r.value = some (sev, msg))
    (hblock : ∃ a ∈ alerts, a.sensorId = r.id ∧ a.acknowledged = false ∧
      now - a.timestamp < 10000) :
    (mergeReadings prev nr).Pairwise
      (fun a b => readingKey a ≠ readingKey b) ∧
    mergeReadings prev nr = prev ∧
    (checkThresholds SENSOR_CONFIGS alerts [r] now).1.Perm alerts := by
  have hdedup : dedupByKey (prev ++ nr) [] = prev :=
    dedupByKey_append_eq prev nr [] hnodup (by simp)
      (fun x hx => Or.inl (hkeys x hx))
  have hsort : prev.mergeSort readingLE = prev :=
    List.mergeSort_of_sorted hsorted
  have hmerge : mergeReadings prev nr = prev := by
    rw [mergeReadings, hdedup, hsort, jsTakeLast,
      Nat.sub_eq_zero_of_le hlen, List.drop_zero]
  refine ⟨?_, hmerge, ?_⟩
  · rw [hmerge]
    exact hnodup
  · rw [checkThresholds_single SENSOR_CONFIGS alerts r now config sev msg hc he,
      debounceInsert,
      if_pos ((debounceBlocked_iff alerts _).mpr (by simpa [mkAlert] using hblock))]
    exact List.mergeSort_perm alerts _

/-- A concrete methane reading on `wa-meth` for the C4 witness. -/
def rM : SensorReading :=
  { id := "wa-meth", type := .METHANE, value := 300, unit := "ppm",
    timestamp := 0, location := "Ward A" }

/-- An unacknowledged alert on `wa-meth`, 5 s old at time 6000. -/
def aM : Alert :=
  { id := "wa-meth-1000", sensorId := "wa-meth",
    message := "CRITICAL METHANE LEAK at Ward A: 300ppm",
    severity := .CRITICAL, timestamp := 1000, acknowledged := false }

/-- Witness for C4 (amended): re-delivering the single reading `rM` while the
5-second-old alert `aM` is still unacknowledged. -/
theorem reconciler_idempotence_amended_witness :
    ([rM].Pairwise fun a b : SensorReading => readingLE a b = true) ∧
    ([rM].Pairwise fun a b : SensorReading => readingKey a ≠ readingKey b) ∧
    [rM].length ≤ HISTORY_LIMIT * SENSOR_CONFIGS.length ∧
    (∀ x ∈ [rM], readingKey x ∈ [rM].map readingKey) ∧
    findConfigIn SENSOR_CONFIGS rM.id = some wardAMethane ∧
    evaluate wardAMethane rM.value =
      some (.CRITICAL, "CRITICAL METHANE LEAK at Ward A: 300ppm") ∧
    (∃ a ∈ [aM], a.sensorId = rM.id ∧ a.acknowledged = false ∧
      6000 - a.timestamp < 10000) ∧
    (mergeReadings [rM] [rM] = [rM] ∧
      (checkThresholds SENSOR_CONFIGS [aM] [rM] 6000).1.Perm [aM]) := by
  have he : evaluate wardAMethane rM.value =
      some (.CRITICAL, "CRITICAL METHANE LEAK at Ward A: 300ppm") := by
    rw [evaluate]
    norm_num [wardAMethane, rM, renderValue]
    rfl
  have h := reconciler_idempotence_amended [rM] [rM] [aM] rM 6000 wardAMethane
    .CRITICAL "CRITICAL METHANE LEAK at Ward A: 300ppm"
    (by decide) (by decide) (by decide) (by decide) (by decide) he (by decide)
  exact ⟨by decide, by decide, by decide, by decide, by decide, he, by decide,
    h.2.1, h.2.2⟩

/-- Concrete evaluation of `mergeSort` on a two-element list. -/
theorem mergeSort_pair {α : Type} (le : α → α → Bool) (a b : α) :
    [a, b].mergeSort le = if le a b then [a, b] else [b, a] := by
  rw [List.mergeSort]
  simp [List.merge]

/-- The deployed Ward A temperature configuration (`wa-temp`). -/
def wardATemp : SensorConfig :=
  { id := "wa-temp", type := .TEMPERATURE, label := "Ward A Temp", unit := "°C",
    safeMin := 22, safeMax := 26, warningThreshold := 26, location := "Ward A" }

/-- The deployed Ward A humidity configuration (`wa-hum`). -/
def wardAHum : SensorConfig :=
  { id := "wa-hum", type := .HUMIDITY, label := "Ward A Humidity", unit := "%",
    safeMin := 40, safeMax := 60, warningThreshold := 60, location := "Ward A" }

/-- A concrete raw record: 300 ppm methane at Ward A, sender timestamp 0. -/
def d300 : ApiSensorData :=
  { device_id := "esp32-001", location := "Ward A", methane := 300,
    temperature := 24, humidity := 50, timestamp := 0 }

/-- The Ward A temperature reading derived from `d300`. -/
def rT : SensorReading :=
  { id := "wa-temp", type := .TEMPERATURE, value := 24, unit := "°C",
    timestamp := 0, location := "Ward A" }

/-- The Ward A humidity reading derived from `d300`. -/
def rH : SensorReading :=
  { id := "wa-hum", type := .HUMIDITY, value := 50, unit := "%",
    timestamp := 0, location := "Ward A" }

/-- The alert generated when `d300` is re-evaluated at tick time 11000. -/
def aM2 : Alert :=
  { id := "wa-meth-11000", sensorId := "wa-meth",
    message := "CRITICAL METHANE LEAK at Ward A: 300ppm",
    severity := .CRITICAL, timestamp := 11000, acknowledged := false }

/-- Converting `d300` yields the three Ward A channel readings. -/
theorem convert_d300_eq :
    convertApiDataToReadings SENSOR_CONFIGS [d300] = [rT, rH, rM] := by
  norm_num [convertApiDataToReadings, SENSOR_CONFIGS, measureFor, round1, d300,
    rT, rH, rM]
  decide

/-- 24 °C against threshold 26 yields no alert. -/
theorem evaluate_wardATemp_rT : evaluate wardATemp rT.value = none := by
  rw [evaluate]
  norm_num [wardATemp, rT]

/-- 50 % humidity against threshold 60 yields no alert. -/
theorem evaluate_wardAHum_rH : evaluate wardAHum rH.value = none := by
  rw [evaluate]
  norm_num [wardAHum, rH]

/-- 300 ppm methane against threshold 200 yields CRITICAL. -/
theorem evaluate_wardAMethane_rM : evaluate wardAMethane rM.value =
    some (.CRITICAL, "CRITICAL METHANE LEAK at Ward A: 300ppm") := by
  rw [evaluate]
  norm_num [wardAMethane, rM, renderValue]
  rfl

/-- The `d300` batch generates exactly one alert, on `wa-meth`, at any tick
time. -/
theorem generatedAlerts_d300 (now : Int) :
    generatedAlerts SENSOR_CONFIGS [rT, rH, rM] now =
      [mkAlert rM now .CRITICAL "CRITICAL METHANE LEAK at Ward A: 300ppm"] := by
  simp only [generatedAlerts, List.filterMap_cons, List.filterMap_nil,
    show findConfigIn SENSOR_CONFIGS rT.id = some wardATemp from by decide,
    show findConfigIn SENSOR_CONFIGS rH.id = some wardAHum from by decide,
    show findConfigIn SENSOR_CONFIGS rM.id = some wardAMethane from by decide,
    Option.some_bind, evaluate_wardATemp_rT, evaluate_wardAHum_rH,
    evaluate_wardAMethane_rM, Option.map_some', Option.map_none',
    Option.none_bind]

/-- The `d300` batch fires the notifier exactly once. -/
theorem notifications_d300 : notifications SENSOR_CONFIGS [rT, rH, rM] =
    ["CRITICAL METHANE LEAK at Ward A: 300ppm"] := by
  simp only [notifications, List.filterMap_cons, List.filterMap_nil,
    show findConfigIn SENSOR_CONFIGS rT.id = some wardATemp from by decide,
    show findConfigIn SENSOR_CONFIGS rH.id = some wardAHum from by decide,
    show findConfigIn SENSOR_CONFIGS rM.id = some wardAMethane from by decide,
    Option.some_bind, evaluate_wardATemp_rT, evaluate_wardAHum_rH,
    evaluate_wardAMethane_rM, Option.none_bind]
  decide

/-- Tick 1 (time 1000, empty ledger): one alert `aM`, one notification. -/
theorem checkThresholds_tick1 : checkThresholds SENSOR_CONFIGS [] [rT, rH, rM] 1000 =
    ([aM], ["CRITICAL METHANE LEAK at Ward A: 300ppm"]) := by
  simp only [checkThresholds, generatedAlerts_d300, notifications_d300,
    List.isEmpty_cons, Bool.false_eq_true, if_false, List.foldl_cons,
    List.foldl_nil, List.mergeSort_singleton]
  norm_num [debounceInsert, debounceBlocked]
  decide

/-- Tick 2 at time 11000 against the unacknowledged `aM`: the 10 s debounce
window has just elapsed (11000 − 1000 = 10000), so a second alert `aM2` is
appended even though the underlying reading is identical. -/
theorem checkThresholds_tick2 :
    checkThresholds SENSOR_CONFIGS [aM] [rT, rH, rM] 11000 =
      ([aM2, aM], ["CRITICAL METHANE LEAK at Ward A: 300ppm"]) := by
  simp only [checkThresholds, generatedAlerts_d300, notifications_d300,
    List.isEmpty_cons, Bool.false_eq_true, if_false, List.foldl_cons,
    List.foldl_nil]
  rw [show debounceInsert [aM]
      (mkAlert rM 11000 .CRITICAL "CRITICAL METHANE LEAK at Ward A: 300ppm") =
      [aM, aM2] from by decide]
  rw [mergeSort_pair]
  norm_num [alertLE, aM, aM2]

/-- Merging the converted `d300` batch into an empty state. -/
theorem mergeReadings_tick1 : mergeReadings [] [rT, rH, rM] = [rT, rH, rM] := by
  rw [mergeReadings, List.nil_append,
    show dedupByKey [rT, rH, rM] [] = [rT, rH, rM] from by decide,
    List.mergeSort_of_sorted (by decide)]
  decide

/-- Re-merging the identical batch leaves the reading state unchanged. -/
theorem mergeReadings_tick2 :
    mergeReadings [rT, rH, rM] [rT, rH, rM] = [rT, rH, rM] := by
  rw [mergeReadings,
    show [rT, rH, rM] ++ [rT, rH, rM] = [rT, rH, rM, rT, rH, rM] from rfl,
    show dedupByKey [rT, rH, rM, rT, rH, rM] [] = [rT, rH, rM] from by decide,
    List.mergeSort_of_sorted (by decide)]
  decide

/-- The full first polling tick. -/
theorem fetchTick_one : fetchTick ⟨[], []⟩ [d300] 1000 =
    (⟨[rT, rH, rM], [aM]⟩, ["CRITICAL METHANE LEAK at Ward A: 300ppm"]) := by
  simp only [fetchTick, convert_d300_eq, checkThresholds_tick1, mergeReadings_tick1]

/-- The full second polling tick, re-delivering the identical batch. -/
theorem fetchTick_two : fetchTick ⟨[rT, rH, rM], [aM]⟩ [d300] 11000 =
    (⟨[rT, rH, rM], [aM2, aM]⟩, ["CRITICAL METHANE LEAK at Ward A: 300ppm"]) := by
  simp only [fetchTick, convert_d300_eq, checkThresholds_tick2, mergeReadings_tick2]

/-- Counterexample to C4 as stated: re-delivering the identical
`(channel_id, timestamp)` reading `d300` on a second tick leaves the merged
reading state unchanged, yet creates a second Alert `aM2` for the same channel
(`wa-meth`) because `checkThresholds` re-evaluates the whole fetched batch and
the first alert has aged out of the 10 s debounce window. -/
theorem reconciler_idempotence_counterexample :
    (fetchTick (fetchTick ⟨[], []⟩ [d300] 1000).1 [d300] 11000).1.readings =
      (fetchTick ⟨[], []⟩ [d300] 1000).1.readings ∧
    (fetchTick ⟨[], []⟩ [d300] 1000).1.alerts = [aM] ∧
    (fetchTick (fetchTick ⟨[], []⟩ [d300] 1000).1 [d300] 11000).1.alerts =
      [aM2, aM] ∧
    aM2.sensorId = aM.sensorId ∧
    aM2 ≠ aM := by
  rw [fetchTick_one]
  rw [show ((⟨[rT, rH, rM], [aM]⟩, ["CRITICAL METHANE LEAK at Ward A: 300ppm"]) :
      ClientState × List String).1 = ⟨[rT, rH, rM], [aM]⟩ from rfl]
  rw [fetchTick_two]
  exact ⟨rfl, rfl, rfl, rfl, by decide⟩

/-! ## Notifier side effects (C7) -/

/-- The spec scenario configuration: warning threshold 800 on the Ward A
methane channel (the mock-era deployment the spec's scenarios compute with:
`800 * 1.2 = 960`). -/
def scenarioConfig800 : SensorConfig :=
  { id := "wa-meth", type := .METHANE, label := "Ward A Methane", unit := "ppm",
    safeMin := 0, safeMax := 200, warningThreshold := 800, location := "Ward A" }

/-- The spec scenario reading: methane 961 at Ward A. -/
def r961 : SensorReading :=
  { id := "wa-meth", type := .METHANE, value := 961, unit := "ppm",
    timestamp := 0, location := "Ward A" }

/-- A WARNING-grade methane reading (210 against the deployed threshold 200,
below the 240 critical cutoff). -/
def rW : SensorReading :=
  { id := "wa-meth", type := .METHANE, value := 210, unit := "ppm",
    timestamp := 0, location := "Ward A" }

/-- 961 ppm against the scenario threshold 800 evaluates CRITICAL
(961 > 960). -/
theorem evaluate_scenario961 : evaluate scenarioConfig800 r961.value =
    some (.CRITICAL, "CRITICAL METHANE LEAK at Ward A: 961ppm") := by
  rw [evaluate]
  norm_num [scenarioConfig800, r961, renderValue]
  rfl

/-- A tick at time 6000 against the 5-second-old unacknowledged `aM`: the
debounce suppresses the new alert, yet the notifier still fires. -/
theorem checkThresholds_blockedTick :
    checkThresholds SENSOR_CONFIGS [aM] [rT, rH, rM] 6000 =
      ([aM], ["CRITICAL METHANE LEAK at Ward A: 300ppm"]) := by
  simp only [checkThresholds, generatedAlerts_d300, notifications_d300,
    List.isEmpty_cons, Bool.false_eq_true, if_false, List.foldl_cons,
    List.foldl_nil]
  rw [show debounceInsert [aM]
      (mkAlert rM 6000 .CRITICAL "CRITICAL METHANE LEAK at Ward A: 300ppm") =
      [aM] from by decide]
  rw [List.mergeSort_singleton]

/-- Counterexample to C7 as stated: at tick time 6000, with the 5-second-old
unacknowledged alert `aM` on `wa-meth` in the ledger, the CRITICAL reading
`rM` creates NO alert (the ledger is unchanged by the debounce), yet the siren
and pop-up notifier fire once — the notifier is not gated on alert creation. -/
theorem notifier_debounced_counterexample :
    (checkThresholds SENSOR_CONFIGS [aM] [rT, rH, rM] 6000).1 = [aM] ∧
    (checkThresholds SENSOR_CONFIGS [aM] [rT, rH, rM] 6000).2 =
      ["CRITICAL METHANE LEAK at Ward A: 300ppm"] := by
  rw [checkThresholds_blockedTick]
  exact ⟨rfl, rfl⟩

/-- C7 (amended): the notifier fires exactly once per reading whose evaluation
is CRITICAL — once per generated CRITICAL alert, before (and regardless of)
the debounce — and never for a WARNING evaluation; the methane-961 scenario
against threshold 800 yields one CRITICAL alert with one notifier
invocation. -/
theorem notifier_critical_spec (configs : List SensorConfig) (prev : List Alert)
    (batch : List SensorReading) (now : Int) :
    (checkThresholds configs prev batch now).2 =
      (generatedAlerts configs batch now).filterMap
        (fun a => if a.severity = .CRITICAL then some a.message else none) ∧
    ((∀ a ∈ generatedAlerts configs batch now, a.severity = .WARNING) →
      (checkThresholds configs prev batch now).2 = []) ∧
    checkThresholds [scenarioConfig800] [] [r961] 0 =
      ([mkAlert r961 0 .CRITICAL "CRITICAL METHANE LEAK at Ward A: 961ppm"],
        ["CRITICAL METHANE LEAK at Ward A: 961ppm"]) := by
  have hfun : ∀ r : SensorReading,
      ((findConfigIn configs r.id).bind fun config =>
        (evaluate config r.value).bind fun sm =>
          if sm.1 = .CRITICAL then some sm.2 else none) =
      (((findConfigIn configs r.id).bind fun config =>
        (evaluate config r.value).map fun sm => mkAlert r now sm.1 sm.2).bind
          fun a => if a.severity = .CRITICAL then some a.message else none) := by
    intro r
    cases findConfigIn configs r.id with
    | none => rfl
    | some config =>
      simp only [Option.some_bind]
      cases evaluate config r.value with
      | none => rfl
      | some sm =>
        cases sm with
        | mk sev m => cases sev <;> rfl
  have hmain : (checkThresholds configs prev batch now).2 =
      (generatedAlerts configs batch now).filterMap
        (fun a => if a.severity = .CRITICAL then some a.message else none) := by
    show notifications configs batch = _
    rw [notifications, generatedAlerts, List.filterMap_filterMap]
    exact List.filterMap_congr fun r _ => hfun r
  have hwarn : ∀ l : List Alert, (∀ a ∈ l, a.severity = .WARNING) →
      l.filterMap (fun a => if a.severity = .CRITICAL then some a.message
        else none) = [] := by
    intro l
    induction l with
    | nil => intro _; rfl
    | cons a t ih =>
      intro h
      rw [List.filterMap_cons, h a (List.mem_cons_self a t)]
      simp only [reduceCtorEq, if_false]
      exact ih fun x hx => h x (List.mem_cons_of_mem a hx)
  refine ⟨hmain, ?_, ?_⟩
  · intro h
    rw [hmain]
    exact hwarn _ h
  · have hgen : generatedAlerts [scenarioConfig800] [r961] 0 =
        [mkAlert r961 0 .CRITICAL "CRITICAL METHANE LEAK at Ward A: 961ppm"] := by
      simp only [generatedAlerts, List.filterMap_cons, List.filterMap_nil,
        show findConfigIn [scenarioConfig800] r961.id = some scenarioConfig800
          from by decide,
        Option.some_bind, evaluate_scenario961, Option.map_some']
    have hnotif : notifications [scenarioConfig800] [r961] =
        ["CRITICAL METHANE LEAK at Ward A: 961ppm"] := by
      simp only [notifications, List.filterMap_cons, List.filterMap_nil,
        show findConfigIn [scenarioConfig800] r961.id = some scenarioConfig800
          from by decide,
        Option.some_bind, evaluate_scenario961]
      decide
    simp only [checkThresholds, hgen, hnotif, List.isEmpty_cons,
      Bool.false_eq_true, if_false, List.foldl_cons, List.foldl_nil,
      List.mergeSort_singleton]
    rw [show debounceInsert []
        (mkAlert r961 0 .CRITICAL "CRITICAL METHANE LEAK at Ward A: 961ppm") =
        [mkAlert r961 0 .CRITICAL "CRITICAL METHANE LEAK at Ward A: 961ppm"]
        from by decide]
    rw [List.mergeSort_singleton]

/-- Witness for C7 (amended), at a WARNING-grade batch: the reading `rW`
(210 ppm against the deployed threshold 200) generates a WARNING alert and no
notification. -/
theorem notifier_critical_spec_witness :
    (checkThresholds SENSOR_CONFIGS [] [rW] 0).2 =
      (generatedAlerts SENSOR_CONFIGS [rW] 0).filterMap
        (fun a => if a.severity = .CRITICAL then some a.message else none) ∧
    ((∀ a ∈ generatedAlerts SENSOR_CONFIGS [rW] 0, a.severity = .WARNING) →
      (checkThresholds SENSOR_CONFIGS [] [rW] 0).2 = []) ∧
    checkThresholds [scenarioConfig800] [] [r961] 0 =
      ([mkAlert r961 0 .CRITICAL "CRITICAL METHANE LEAK at Ward A: 961ppm"],
        ["CRITICAL METHANE LEAK at Ward A: 961ppm"]) :=
  notifier_critical_spec SENSOR_CONFIGS [] [rW] 0

/-! ## Liveness & per-sensor display: `WardRow`
(src/components/Dashboard.tsx lines 22-178) -/

/-- `readings.find(r => r.id === config.id)` (Dashboard.tsx line 34). -/
def findReading (readings : List SensorReading) (id : String) :
    Option SensorReading :=
  readings.find? fun r => r.id == id

/-- The reading `getReading(type)` resolves for a ward's channel of the given
type (Dashboard.tsx lines 29-40). -/
def wardData (configs : List SensorConfig) (readings : List SensorReading)
    (t : SensorType) : Option SensorReading :=
  (configs.find? fun c => c.type == t).bind fun c => findReading readings c.id

/-- `x?.data?.timestamp || 0` (`0` is falsy, so this is the plain
projection with default 0). -/
def optTs (x : Option SensorReading) : Int :=
  match x with
  | some r => r.timestamp
  | none => 0

/-- Truthiness of `x?.data?.error` for the `hasError` check
(Dashboard.tsx line 60). -/
def optErrTruthy (x : Option SensorReading) : Bool :=
  match x with
  | some r => errTruthy r.error
  | none => false

/-- `Math.round` (round half toward positive infinity). -/
def jsRound (q : ℚ) : Int := ⌊q + 1/2⌋

/-- `Math.max(methane?.data?.timestamp || 0, temp?..., hum?...)`
(Dashboard.tsx lines 52-56). -/
def wardLastTimestamp (configs : List SensorConfig)
    (readings : List SensorReading) : Int :=
  max (max (optTs (wardData configs readings .METHANE))
      (optTs (wardData configs readings .TEMPERATURE)))
    (optTs (wardData configs readings .HUMIDITY))

/-- What a `WardRow` renders: its state flags, the methane display string
(`Math.round(value)` or `--`), and the status pill label. -/
structure WardRowView where
  isCritical : Bool
  isWarning : Bool
  isOffline : Bool
  hasError : Bool
  methaneDisplay : String
  statusLabel : String
deriving DecidableEq, Repr

/-- The `WardRow` component logic (Dashboard.tsx lines 22-178): the methane
severity flags (lines 45-49), the 15 s offline check over the ward's latest
timestamps (lines 51-57), the `hasError` flag (line 60), the methane value
display `Math.round(value)` with `--` only when NO reading exists (line 121),
and the status pill label (line 168). -/
def wardRow (configs : List SensorConfig) (readings : List SensorReading)
    (now : Int) : WardRowView :=
  let mData := wardData configs readings .METHANE
  let methaneConfig := configs.find? fun c => c.type == SensorType.METHANE
  let methaneValue : ℚ :=
    match mData with
    | some r => r.value
    | none => 0
  let methaneLimit : ℚ :=
    match methaneConfig with
    | some c => c.warningThreshold
    | none => 0
  let isCritical := decide (methaneValue > methaneLimit * (6/5))
  let isWarning := !isCritical && decide (methaneValue ≥ methaneLimit)
  let isOffline := decide (now - wardLastTimestamp configs readings > 15000)
  let hasError := optErrTruthy mData ||
    optErrTruthy (wardData configs readings .TEMPERATURE) ||
    optErrTruthy (wardData configs readings .HUMIDITY)
  let methaneDisplay :=
    match mData with
    | some r => toString (jsRound r.value)
    | none => "--"
  let statusLabel :=
    if isOffline then "OFFLINE"
    else if hasError then "SENSOR ERROR"
    else if isCritical then "CRITICAL LEAK"
    else if isWarning then "Warning"
    else "Safe"
  ⟨isCritical, isWarning, isOffline, hasError, methaneDisplay, statusLabel⟩

/-- The single methane reading `rM` generates one CRITICAL alert at any tick
time, stale or not. -/
theorem generatedAlerts_rM (now : Int) :
    generatedAlerts SENSOR_CONFIGS [rM] now =
      [mkAlert rM now .CRITICAL "CRITICAL METHANE LEAK at Ward A: 300ppm"] := by
  simp only [generatedAlerts, List.filterMap_cons, List.filterMap_nil,
    show findConfigIn SENSOR_CONFIGS rM.id = some wardAMethane from by decide,
    Option.some_bind, evaluate_wardAMethane_rM, Option.map_some']

/-- Counterexample to C8 as stated: with the last reading 16 s old
(threshold 15 s), the ward is classified OFFLINE — but the display still
shows the stale rounded value `300`, not `--`, the severity flags are still
computed from the stale value, and `checkThresholds` still evaluates the
stale reading and creates an alert. -/
theorem offline_display_counterexample :
    (wardRow [wardATemp, wardAHum, wardAMethane] [rM] 16000).isOffline = true ∧
    (wardRow [wardATemp, wardAHum, wardAMethane] [rM] 16000).statusLabel
      = "OFFLINE" ∧
    (wardRow [wardATemp, wardAHum, wardAMethane] [rM] 16000).methaneDisplay
      = "300" ∧
    (wardRow [wardATemp, wardAHum, wardAMethane] [rM] 16000).isCritical = true ∧
    (checkThresholds SENSOR_CONFIGS [] [rM] 16000).1.length = 1 := by
  have hmd : wardData [wardATemp, wardAHum, wardAMethane] [rM] .METHANE
      = some rM := by decide
  have htd : wardData [wardATemp, wardAHum, wardAMethane] [rM] .TEMPERATURE
      = none := by decide
  have hhd : wardData [wardATemp, wardAHum, wardAMethane] [rM] .HUMIDITY
      = none := by decide
  have hmc : List.find? (fun c => c.type == SensorType.METHANE)
      [wardATemp, wardAHum, wardAMethane] = some wardAMethane := by decide
  have hlast : wardLastTimestamp [wardATemp, wardAHum, wardAMethane] [rM] = 0 := by
    rw [wardLastTimestamp, hmd, htd, hhd]
    decide
  have hward : wardRow [wardATemp, wardAHum, wardAMethane] [rM] 16000 =
      ⟨true, false, true, false, "300", "OFFLINE"⟩ := by
    simp only [wardRow, hmd, htd, hhd, hmc, hlast]
    norm_num [optTs, optErrTruthy, errTruthy, rM, wardAMethane, jsRound]
    rfl
  have hcheck : (checkThresholds SENSOR_CONFIGS [] [rM] 16000).1 =
      [mkAlert rM 16000 .CRITICAL "CRITICAL METHANE LEAK at Ward A: 300ppm"] := by
    simp only [checkThresholds, generatedAlerts_rM, List.isEmpty_cons,
      Bool.false_eq_true, if_false, List.foldl_cons, List.foldl_nil,
      List.mergeSort_singleton]
    rw [show debounceInsert []
        (mkAlert rM 16000 .CRITICAL "CRITICAL METHANE LEAK at Ward A: 300ppm") =
        [mkAlert rM 16000 .CRITICAL "CRITICAL METHANE LEAK at Ward A: 300ppm"]
        from by decide]
    rw [List.mergeSort_singleton]
  rw [hward, hcheck]
  exact ⟨rfl, rfl, rfl, rfl, rfl⟩

/-- C8 (amended): the ward is classified OFFLINE exactly when
`now − lastTimestamp > 15000`, and then the status pill shows `OFFLINE`; but
the per-sensor display shows `--` only when no reading exists at all — a
stale reading's rounded value remains displayed — and threshold evaluation is
insensitive to reading staleness (it never looks at the reading's
timestamp). -/
theorem offline_display_spec (configs : List SensorConfig)
    (readings readings2 : List SensorReading) (now now2 t2 : Int)
    (rm r : SensorReading) (prev : List Alert)
    (hm : wardData configs readings .METHANE = some rm)
    (hnone : wardData configs readings2 .METHANE = none) :
    ((wardRow configs readings now).isOffline = true ↔
      now - wardLastTimestamp configs readings > 15000) ∧
    ((wardRow configs readings now).isOffline = true →
      (wardRow configs readings now).statusLabel = "OFFLINE") ∧
    (wardRow configs readings now).methaneDisplay =
      toString (jsRound rm.value) ∧
    (wardRow configs readings2 now).methaneDisplay = "--" ∧
    checkThresholds configs prev [{ r with timestamp := t2 }] now2 =
      checkThresholds configs prev [r] now2 := by
  refine ⟨?_, ?_, ?_, ?_, ?_⟩
  · simp [wardRow]
  · intro h
    simp only [wardRow, decide_eq_true_eq] at h ⊢
    rw [if_pos (by simpa using h)]
  · simp [wardRow, hm]
  · simp [wardRow, hnone]
  · rfl

/-- Witness for C8 (amended): the Ward A configs with the single stale
reading `rM` (timestamp 0) at wall-clock 16000. -/
theorem offline_display_spec_witness :
    wardData [wardATemp, wardAHum, wardAMethane] [rM] .METHANE = some rM ∧
    wardData [wardATemp, wardAHum, wardAMethane] [] .METHANE = none ∧
    (((wardRow [wardATemp, wardAHum, wardAMethane] [rM] 16000).isOffline = true ↔
        16000 - wardLastTimestamp [wardATemp, wardAHum, wardAMethane] [rM]
          > 15000) ∧
      ((wardRow [wardATemp, wardAHum, wardAMethane] [rM] 16000).isOffline = true →
        (wardRow [wardATemp, wardAHum, wardAMethane] [rM] 16000).statusLabel
          = "OFFLINE") ∧
      (wardRow [wardATemp, wardAHum, wardAMethane] [rM] 16000).methaneDisplay =
        toString (jsRound rM.value) ∧
      (wardRow [wardATemp, wardAHum, wardAMethane] [] 16000).methaneDisplay
        = "--" ∧
      checkThresholds [wardATemp, wardAHum, wardAMethane] []
          [{ rM with timestamp := 500 }] 16000 =
        checkThresholds [wardATemp, wardAHum, wardAMethane] [] [rM] 16000) :=
  ⟨by decide, by decide,
    offline_display_spec [wardATemp, wardAHum, wardAMethane] [rM] [] 16000
      16000 500 rM rM [] (by decide) (by decide)⟩

/-! ## Alert message formats (C9) -/

/-- The spec scenario reading: methane 950 at Ward A. -/
def r950 : SensorReading :=
  { id := "wa-meth", type := .METHANE, value := 950, unit := "ppm",
    timestamp := 0, location := "Ward A" }

/-- 950 ppm against the scenario threshold 800 evaluates WARNING
(950 < 960 = 800 · 1.2) with the exact message of the spec scenario. -/
theorem evaluate_scenario950 : evaluate scenarioConfig800 (950 : ℚ) =
    some (.WARNING, "Elevated Methane levels at Ward A: 950ppm") := by
  rw [evaluate]
  norm_num [scenarioConfig800, renderValue]
  rfl

/-- C9: every produced alert message matches the channel-type-specific format
verbatim — `"CRITICAL METHANE LEAK at {location}: {value}{unit}"` for methane
CRITICAL, `"Elevated Methane levels at {location}: {value}{unit}"` for
methane WARNING, `"{TYPE} High at {location}: {value}{unit}"` for non-methane
channels — every alert `checkThresholds` adds to the ledger carries that
message, and methane 950 against threshold 800 yields exactly
`"Elevated Methane levels at Ward A: 950ppm"`. -/
theorem message_format_spec (configs : List SensorConfig) (prev : List Alert)
    (r : SensorReading) (now : Int) (config : SensorConfig) (sev : Severity)
    (msg : String) (hc : findConfigIn configs r.id = some config)
    (he : evaluate config r.value = some (sev, msg)) :
    (config.type = .METHANE → sev = .CRITICAL →
      msg = "CRITICAL METHANE LEAK at " ++ config.location ++ ": " ++
        renderValue r.value ++ config.unit) ∧
    (config.type = .METHANE → sev = .WARNING →
      msg = "Elevated Methane levels at " ++ config.location ++ ": " ++
        renderValue r.value ++ config.unit) ∧
    (config.type ≠ .METHANE →
      msg = sensorTypeName config.type ++ " High at " ++ config.location ++
        ": " ++ renderValue r.value ++ config.unit) ∧
    (∀ a ∈ (checkThresholds configs prev [r] now).1,
      a ∈ prev ∨ a.message = msg) ∧
    evaluate scenarioConfig800 (950 : ℚ) =
      some (.WARNING, "Elevated Methane levels at Ward A: 950ppm") := by
  have key : (config.type = .METHANE ∧ sev = .CRITICAL ∧
        msg = "CRITICAL METHANE LEAK at " ++ config.location ++ ": " ++
          renderValue r.value ++ config.unit) ∨
      (config.type = .METHANE ∧ sev = .WARNING ∧
        msg = "Elevated Methane levels at " ++ config.location ++ ": " ++
          renderValue r.value ++ config.unit) ∨
      (config.type ≠ .METHANE ∧
        msg = sensorTypeName config.type ++ " High at " ++ config.location ++
          ": " ++ renderValue r.value ++ config.unit) := by
    by_cases hm : config.type = .METHANE
    · rw [evaluate, if_pos hm] at he
      split_ifs at he with h1 h2
      · left
        simp only [Option.some.injEq, Prod.mk.injEq] at he
        exact ⟨hm, he.1.symm, he.2.symm⟩
      · right
        left
        simp only [Option.some.injEq, Prod.mk.injEq] at he
        exact ⟨hm, he.1.symm, he.2.symm⟩
    · rw [evaluate, if_neg hm] at he
      split_ifs at he with h1 h2
      · right
        right
        simp only [Option.some.injEq, Prod.mk.injEq] at he
        exact ⟨hm, he.2.symm⟩
      · right
        right
        simp only [Option.some.injEq, Prod.mk.injEq] at he
        exact ⟨hm, he.2.symm⟩
  refine ⟨?_, ?_, ?_, ?_, evaluate_scenario950⟩
  · intro hm hcrit
    rcases key with ⟨_, _, h⟩ | ⟨_, hw, _⟩ | ⟨hne, _⟩
    · exact h
    · rw [hcrit] at hw
      exact absurd hw (by simp)
    · exact absurd hm hne
  · intro hm hwarn
    rcases key with ⟨_, hcr, _⟩ | ⟨_, _, h⟩ | ⟨hne, _⟩
    · rw [hwarn] at hcr
      exact absurd hcr (by simp)
    · exact h
    · exact absurd hm hne
  · intro hne
    rcases key with ⟨hm, _, _⟩ | ⟨hm, _, _⟩ | ⟨_, h⟩
    · exact absurd hm hne
    · exact absurd hm hne
    · exact h
  · rw [checkThresholds_single configs prev r now config sev msg hc he]
    intro a ha
    rw [List.mem_mergeSort, debounceInsert] at ha
    split_ifs at ha
    · exact Or.inl ha
    · rcases List.mem_append.mp ha with h | h
      · exact Or.inl h
      · right
        rw [List.mem_singleton] at h
        rw [h]
        rfl

/-- Witness for C9, at the spec scenario: reading `r950` against the
threshold-800 configuration, starting from an empty ledger at tick time 7. -/
theorem message_format_spec_witness :
    findConfigIn [scenarioConfig800] r950.id = some scenarioConfig800 ∧
    evaluate scenarioConfig800 r950.value =
      some (.WARNING, "Elevated Methane levels at Ward A: 950ppm") ∧
    ((scenarioConfig800.type = .METHANE → Severity.WARNING = .CRITICAL →
      "Elevated Methane levels at Ward A: 950ppm" =
        "CRITICAL METHANE LEAK at " ++ scenarioConfig800.location ++ ": " ++
          renderValue r950.value ++ scenarioConfig800.unit) ∧
    (scenarioConfig800.type = .METHANE → Severity.WARNING = .WARNING →
      "Elevated Methane levels at Ward A: 950ppm" =
        "Elevated Methane levels at " ++ scenarioConfig800.location ++ ": " ++
          renderValue r950.value ++ scenarioConfig800.unit) ∧
    (scenarioConfig800.type ≠ .METHANE →
      "Elevated Methane levels at Ward A: 950ppm" =
        sensorTypeName scenarioConfig800.type ++ " High at " ++
          scenarioConfig800.location ++ ": " ++ renderValue r950.value ++
          scenarioConfig800.unit) ∧
    (∀ a ∈ (checkThresholds [scenarioConfig800] [] [r950] 7).1,
      a ∈ ([] : List Alert) ∨
        a.message = "Elevated Methane levels at Ward A: 950ppm") ∧
    evaluate scenarioConfig800 (950 : ℚ) =
      some (.WARNING, "Elevated Methane levels at Ward A: 950ppm")) := by
  have he : evaluate scenarioConfig800 r950.value =
      some (.WARNING, "Elevated Methane levels at Ward A: 950ppm") :=
    evaluate_scenario950
  exact ⟨by decide, he,
    message_format_spec [scenarioConfig800] [] r950 7 scenarioConfig800
      .WARNING "Elevated Methane levels at Ward A: 950ppm" (by decide) he⟩

end SafeWard
